import Mathlib

/-!
Shallow embedding of the `without_instance` example pallet
(src/pallets/without-instance/src/lib.rs), a FRAME v2 pallet with:
* config: `Balance : Parameter + From<u8>` (instantiated here as `Nat`),
* one dispatchable `toto(origin, #[pallet::compact] foo: u32)` with
  declared weight `0`,
* hook `on_initialize` returning weight `10`,
* error enum `Error { InsufficientProposersBalance }`,
* event enum `Event { Proposed(AccountId), Spending(Balance), Something(u32) }`,
* storage `MyStorageValue : StorageValue<Balance, ValueQuery, MyDefault>` with
  `MyDefault = 3.into()` and `MyStorage : StorageMap<Blake2_128Concat, u32, u32>`.

Machine integers (`u32`, `Balance`) are embedded as `Nat`: the pallet performs
no arithmetic on them (only the comparison `foo < 10`), so no overflow wrapping
arises. `print(...)` calls in the source are host-side debug output with no
effect on state and are not modelled.
-/

/-- Instantiation of the config type `T::Balance` (the runtime binds any
`Parameter + From<u8>` type; `Nat` embeds the small literals used: `3.into()`). -/
abbrev Balance := Nat

/-- Instantiation of `T::AccountId` from `frame_system::Config`. -/
abbrev AccountId := Nat

/-- The system origin presented to a dispatchable (`RawOrigin` of
`frame_system`): a signed account, root, or none. -/
inductive Origin where
  | signed (who : AccountId)
  | root
  | none
deriving DecidableEq, Repr

/-- The pallet's `Error` enum (src lines 75-79): a single variant
`InsufficientProposersBalance`. -/
inductive PalletError where
  | insufficientProposersBalance
deriving DecidableEq, Repr

/-- The pallet's `Event` enum (src lines 86-101). -/
inductive Event where
  | proposed (who : AccountId)
  | spending (b : Balance)
  | something (x : Nat)
deriving DecidableEq, Repr

/-- Failure of a dispatched call: `BadOrigin` (from `ensure_signed`) or a
module error (from `ensure!`). -/
inductive DispatchFailure where
  | badOrigin
  | moduleError (e : PalletError)
deriving DecidableEq, Repr

/-- `DispatchResult = Result<(), DispatchError>`. -/
abbrev DispatchResult := Except DispatchFailure Unit

/-- Runtime state visible to this pallet: its two storage items and the
block's event log (owned by the runtime, append-only from the pallet).
`MyStorage` is a key-value map represented as an association list whose
keys are unique (insert removes any previous binding first). -/
structure State where
  myStorageValue : Option Balance
  myStorage : List (Nat × Nat)
  events : List Event
deriving DecidableEq, Repr

/-- The state before any write: both storage items unset, event log empty. -/
def initialState : State := { myStorageValue := Option.none, myStorage := [], events := [] }

/-- `frame_system::ensure_signed`: `Ok(who)` for a signed origin, `Err(BadOrigin)`
otherwise (embedded as `Option`: `some who` or `none`). -/
def ensure_signed : Origin → Option AccountId
  | Origin.signed who => some who
  | _ => Option.none

/-- `Pallet::deposit_event` (generated by `#[pallet::generate_deposit]`):
appends one event to the block's event log. -/
def deposit_event (e : Event) (st : State) : State :=
  { st with events := st.events ++ [e] }

/-- The declared weight of `toto`, from `#[pallet::weight(0)]` (function
parameters are in scope but unused): the constant `0` for every argument. -/
def totoWeight (_foo : Nat) : Nat := 0

/-- The dispatchable `toto` (src lines 62-70):
`ensure_signed(origin)?`, then `ensure!(foo < 10, InsufficientProposersBalance)`,
then `deposit_event(Something(foo))`, then `Ok(())`. Returns the dispatch
result together with the state it leaves behind. -/
def toto (origin : Origin) (foo : Nat) (st : State) : DispatchResult × State :=
  match ensure_signed origin with
  | Option.none => (Except.error DispatchFailure.badOrigin, st)
  | some _who =>
    if foo < 10 then
      (Except.ok (), deposit_event (Event.something foo) st)
    else
      (Except.error (DispatchFailure.moduleError PalletError.insufficientProposersBalance), st)

/-- The `on_initialize` hook (src lines 43-46): prints and returns weight `10`. -/
def on_initialize (_n : Nat) : Nat := 10

/-- `MyDefault` (src lines 104-107): the `Get<T::Balance>` default provider,
`3.into()`. -/
def MyDefault : Balance := 3

/-- `MyStorageValue::get` with `ValueQuery` and default `MyDefault`: the stored
value, or the declared default when unset. -/
def myStorageValue_get (st : State) : Balance :=
  st.myStorageValue.getD MyDefault

/-- `MyStorageValue::put(v)`. -/
def myStorageValue_set (st : State) (v : Balance) : State :=
  { st with myStorageValue := some v }

/-- `MyStorageValue::kill()`. -/
def myStorageValue_remove (st : State) : State :=
  { st with myStorageValue := Option.none }

/-- The map getter `my_storage(k)` declared by `#[pallet::getter(fn my_storage)]`
(src line 129): point lookup, `None` when absent. -/
def my_storage (st : State) (k : Nat) : Option Nat :=
  (st.myStorage.find? (fun p => p.1 = k)).map (fun p => p.2)

/-- `MyStorage::insert(k, v)`: replaces any previous binding of `k`. -/
def myStorage_insert (st : State) (k v : Nat) : State :=
  { st with myStorage := (k, v) :: st.myStorage.filter (fun p => p.1 ≠ k) }

/-- `MyStorage::remove(k)`. -/
def myStorage_remove (st : State) (k : Nat) : State :=
  { st with myStorage := st.myStorage.filter (fun p => p.1 ≠ k) }

/-- A storage read of `MyStorageValue` in state-passing form: the value read
and the state the read leaves behind (reads write nothing). -/
def myStorageValue_read (st : State) : Balance × State :=
  (myStorageValue_get st, st)

/-- A storage read of `MyStorage` at key `k` in state-passing form. -/
def myStorage_read (st : State) (k : Nat) : Option Nat × State :=
  (my_storage st k, st)

/-! ### Storage key derivation

The pallet's storage items live in a shared byte-keyed store. The comment at
src lines 6-7 records that the pallet's name (supplied by `construct_runtime`)
is the unique identifier for the pallet's storage; the derivation machinery
itself lives in `frame_support`, outside this repository's files, so it is
modelled from the spec: keys are derived deterministically from the module
identifier and item name (each hashed to a fixed-width `twox128` prefix), and
map entries append the declared hasher's output (`Blake2_128Concat` for
`MyStorage`, src line 130) for the entry key. `twox128` is two runs of the
XXH64 hash (seeds 0 and 1), implemented below over byte lists with `Nat`
arithmetic modulo `2^64`. -/

/-- Two to the sixty-fourth: the modulus of 64-bit wrapping arithmetic. -/
def M64 : Nat := 2 ^ 64

def PRIME64_1 : Nat := 11400714785074694791

def PRIME64_2 : Nat := 14029467366897019727

def PRIME64_3 : Nat := 1609587929392839161

def PRIME64_4 : Nat := 9650029242287828579

def PRIME64_5 : Nat := 2870177450012600261

/-- Left rotation of a 64-bit value `x < 2^64` by `r` bits. -/
def rotl64 (x r : Nat) : Nat :=
  (x % 2 ^ (64 - r)) * 2 ^ r + x / 2 ^ (64 - r)

/-- Little-endian read of a byte list as one number. -/
def readLE (bs : List Nat) : Nat :=
  bs.foldr (fun b acc => b + 256 * acc) 0

/-- The XXH64 round function: `rotl(acc + lane * PRIME64_2, 31) * PRIME64_1`. -/
def xxh64round (acc lane : Nat) : Nat :=
  (rotl64 ((acc + lane * PRIME64_2) % M64) 31 * PRIME64_1) % M64

/-- The XXH64 accumulator merge step used on inputs of 32 bytes or more. -/
def xxh64merge (acc v : Nat) : Nat :=
  ((Nat.xor acc (xxh64round 0 v)) * PRIME64_1 % M64 + PRIME64_4) % M64

/-- The XXH64 final avalanche. -/
def xxh64avalanche (acc : Nat) : Nat :=
  let a1 := Nat.xor acc (acc / 2 ^ 33)
  let a2 := a1 * PRIME64_2 % M64
  let a3 := Nat.xor a2 (a2 / 2 ^ 29)
  let a4 := a3 * PRIME64_3 % M64
  Nat.xor a4 (a4 / 2 ^ 32)

/-- The XXH64 main loop over 32-byte stripes. The first argument is fuel
(passing the input length suffices: each step consumes 32 bytes), keeping the
recursion structural so that proofs can evaluate the function. -/
def xxh64stripes : Nat → Nat × Nat × Nat × Nat → List Nat → (Nat × Nat × Nat × Nat) × List Nat
  | 0, accs, bs => (accs, bs)
  | fuel + 1, (a1, a2, a3, a4), bs =>
    if 32 ≤ bs.length then
      xxh64stripes fuel
        (xxh64round a1 (readLE (bs.take 8)),
         xxh64round a2 (readLE ((bs.drop 8).take 8)),
         xxh64round a3 (readLE ((bs.drop 16).take 8)),
         xxh64round a4 (readLE ((bs.drop 24).take 8)))
        (bs.drop 32)
    else ((a1, a2, a3, a4), bs)

/-- The XXH64 tail loop over remaining 8-byte lanes (fuel-structural as above). -/
def xxh64tail8 : Nat → Nat → List Nat → Nat × List Nat
  | 0, acc, bs => (acc, bs)
  | fuel + 1, acc, bs =>
    if 8 ≤ bs.length then
      let acc2 := Nat.xor acc (xxh64round 0 (readLE (bs.take 8)))
      xxh64tail8 fuel ((rotl64 acc2 27 * PRIME64_1 + PRIME64_4) % M64) (bs.drop 8)
    else (acc, bs)

/-- The XXH64 step consuming one remaining 4-byte lane, when present. -/
def xxh64tail4 (acc : Nat) (bs : List Nat) : Nat × List Nat :=
  if 4 ≤ bs.length then
    let acc2 := Nat.xor acc ((readLE (bs.take 4) * PRIME64_1) % M64)
    ((rotl64 acc2 23 * PRIME64_2 + PRIME64_3) % M64, bs.drop 4)
  else (acc, bs)

/-- The XXH64 loop over the last remaining bytes. -/
def xxh64tail1 : List Nat → Nat → Nat
  | [], acc => acc
  | b :: rest, acc =>
    xxh64tail1 rest ((rotl64 (Nat.xor acc ((b * PRIME64_5) % M64)) 11 * PRIME64_1) % M64)

/-- XXH64 of a byte list with the given seed. -/
def xxh64 (seed : Nat) (input : List Nat) : Nat :=
  let len := input.length
  let (acc0, rest0) :=
    if 32 ≤ len then
      let ((a1, a2, a3, a4), rest) :=
        xxh64stripes len
          ((seed + PRIME64_1 + PRIME64_2) % M64,
           (seed + PRIME64_2) % M64,
           seed % M64,
           (seed + (M64 - PRIME64_1 % M64)) % M64)
          input
      let acc := (rotl64 a1 1 + rotl64 a2 7 + rotl64 a3 12 + rotl64 a4 18) % M64
      (xxh64merge (xxh64merge (xxh64merge (xxh64merge acc a1) a2) a3) a4, rest)
    else ((seed % M64 + PRIME64_5) % M64, input)
  let acc1 := (acc0 + len) % M64
  let (acc2, rest2) := xxh64tail8 len acc1 rest0
  let (acc3, rest3) := xxh64tail4 acc2 rest2
  xxh64avalanche (xxh64tail1 rest3 acc3)

/-- The `n` little-endian bytes of a number. -/
def toLEBytes : Nat → Nat → List Nat
  | 0, _ => []
  | n + 1, x => x % 256 :: toLEBytes n (x / 256)

/-- The `Twox128` storage hasher: XXH64 with seed 0 and with seed 1, each laid
out as 8 little-endian bytes. -/
def twox128 (bs : List Nat) : List Nat :=
  toLEBytes 8 (xxh64 0 bs) ++ toLEBytes 8 (xxh64 1 bs)

/-- Modelled from the spec: the physical key of a `StorageValue`, derived
deterministically from the module identifier and the item name; the derivation
code lives in `frame_support`, not in this repository's files. Both components
are hashed to fixed-width 16-byte `Twox128` prefixes. -/
def storage_value_key (moduleId item : List Nat) : List Nat :=
  twox128 moduleId ++ twox128 item

/-- Modelled from the spec: the physical key of one `StorageMap` entry — the
module and item prefixes as for a value, followed by the declared hasher's
output for the entry's key (for `Blake2_128Concat`, the 16-byte Blake2 hash of
the SCALE-encoded key followed by the encoded key itself; it enters here as an
arbitrary byte-list suffix, so every possible hasher output is covered). -/
def storage_map_entry_key (moduleId item hashedKey : List Nat) : List Nat :=
  twox128 moduleId ++ twox128 item ++ hashedKey

/-- The UTF-8 bytes of the item name `MyStorageValue` (src line 124). -/
def myStorageValueName : List Nat :=
  [77, 121, 83, 116, 111, 114, 97, 103, 101, 86, 97, 108, 117, 101]

/-- The UTF-8 bytes of the item name `MyStorage` (src line 130). -/
def myStorageName : List Nat :=
  [77, 121, 83, 116, 111, 114, 97, 103, 101]

/-- The physical key of `MyStorageValue` under a given module identifier. -/
def MyStorageValue_key (moduleId : List Nat) : List Nat :=
  storage_value_key moduleId myStorageValueName

/-- The physical key of a `MyStorage` entry under a given module identifier. -/
def MyStorage_entry_key (moduleId hashedKey : List Nat) : List Nat :=
  storage_map_entry_key moduleId myStorageName hashedKey

/-! ### Call decoding and dispatch -/

/-- The pallet's `Call` enum generated from `#[pallet::call]`: one variant per
dispatchable, here only `toto { foo: u32 }`. -/
inductive Call where
  | toto (foo : Nat)
deriving DecidableEq, Repr

/-- SCALE `Compact<u32>` decoding (the `#[pallet::compact]` attribute on `foo`
makes the generated `Call` encoding use it): the low two bits of the first
byte select the mode (1, 2, 4 or 4+ bytes); each mode checks the value lies in
its canonical range and rejects otherwise. Returns the decoded value and the
unread remainder, or `none` on failure. -/
def decodeCompactU32 (bs : List Nat) : Option (Nat × List Nat) :=
  match bs with
  | [] => Option.none
  | b0 :: rest =>
    match b0 % 4 with
    | 0 => some (b0 / 4, rest)
    | 1 =>
      match rest with
      | b1 :: rest2 =>
        let x := (b0 + 256 * b1) / 4
        if 63 < x ∧ x ≤ 2 ^ 14 - 1 then some (x, rest2) else Option.none
      | _ => Option.none
    | 2 =>
      match rest with
      | b1 :: b2 :: b3 :: rest4 =>
        let x := (b0 + 256 * b1 + 65536 * b2 + 16777216 * b3) / 4
        if 2 ^ 14 - 1 < x ∧ x ≤ 2 ^ 30 - 1 then some (x, rest4) else Option.none
      | _ => Option.none
    | _ =>
      if b0 / 4 = 0 then
        match rest with
        | b1 :: b2 :: b3 :: b4 :: rest5 =>
          let x := b1 + 256 * b2 + 65536 * b3 + 16777216 * b4
          if 2 ^ 30 - 1 < x then some (x, rest5) else Option.none
        | _ => Option.none
      else Option.none

/-- Decoding a payload into the pallet's `Call`: the first byte is the call
index (`toto` is the only call, index 0), followed by the compact-encoded
argument; as at the enclosing extrinsic level, trailing bytes are rejected. -/
def decodeCall (payload : List Nat) : Option Call :=
  match payload with
  | [] => Option.none
  | idx :: rest =>
    if idx = 0 then
      match decodeCompactU32 rest with
      | some (foo, []) => some (Call.toto foo)
      | _ => Option.none
    else Option.none

deriving instance DecidableEq for Except

/-- Outcome of applying a raw payload: a decode (infrastructure) failure, or
the dispatch result of the decoded call. -/
inductive ApplyOutcome where
  | decodeError
  | dispatched (r : DispatchResult)
deriving DecidableEq, Repr

/-- `dispatch(origin, payload)`: decode the payload into a `Call`, then run
the matching dispatchable; a payload that fails to decode reaches no
dispatchable and leaves the state untouched. -/
def dispatchBytes (origin : Origin) (payload : List Nat) (st : State) : ApplyOutcome × State :=
  match decodeCall payload with
  | Option.none => (ApplyOutcome.decodeError, st)
  | some (Call.toto foo) =>
    (ApplyOutcome.dispatched (toto origin foo st).1, (toto origin foo st).2)

/-! ### Block execution order -/

/-- A transaction as the runtime presents it: an origin and a raw payload. -/
structure Tx where
  origin : Origin
  payload : List Nat

/-- One entry of a block's execution trace: the `on_initialize` hook firing
(with the weight it returned), or one transaction applied. -/
inductive TraceEntry where
  | hookFired (n : Nat) (weight : Nat)
  | txApplied (outcome : ApplyOutcome)
deriving DecidableEq, Repr

/-- Sequential application of a block's transactions, accumulating the trace. -/
def runTxs : List Tx → State → List TraceEntry × State
  | [], st => ([], st)
  | tx :: rest, st =>
    (TraceEntry.txApplied (dispatchBytes tx.origin tx.payload st).1 ::
       (runTxs rest (dispatchBytes tx.origin tx.payload st).2).1,
     (runTxs rest (dispatchBytes tx.origin tx.payload st).2).2)

/-- Modelled from the spec: the runtime's block execution order — the
`on_initialize` hook fires once at block start, before any transaction of the
block is dispatched (the executive driving this lives outside this
repository's files). The hook's returned weight is recorded in the trace. -/
def executeBlock (n : Nat) (txs : List Tx) (st : State) : List TraceEntry × State :=
  let w := on_initialize n
  (TraceEntry.hookFired n w :: (runTxs txs st).1, (runTxs txs st).2)

/-- Whether a trace entry is the `on_initialize` hook firing. -/
def isInitHook : TraceEntry → Bool
  | TraceEntry.hookFired _ _ => true
  | TraceEntry.txApplied _ => false

/-! ### Interference operations

Everything this pallet's code can do to storage between two points in time,
used to state that a stored value persists until the next write to it. -/

/-- The storage-touching operations available in this pallet: direct writes to
either item, dispatching `toto`, and running the `on_initialize` hook. -/
inductive StorageOp where
  | svSet (v : Balance)
  | svRemove
  | mapInsert (k v : Nat)
  | mapRemove (k : Nat)
  | callToto (o : Origin) (foo : Nat)
  | runInit (n : Nat)
deriving DecidableEq, Repr

/-- Apply one operation to the state (`on_initialize` only prints and returns
a weight, so it leaves the state unchanged). -/
def applyStorageOp (st : State) : StorageOp → State
  | StorageOp.svSet v => myStorageValue_set st v
  | StorageOp.svRemove => myStorageValue_remove st
  | StorageOp.mapInsert k v => myStorage_insert st k v
  | StorageOp.mapRemove k => myStorage_remove st k
  | StorageOp.callToto o foo => (toto o foo st).2
  | StorageOp.runInit _ => st

/-- Apply a sequence of operations left to right. -/
def applyStorageOps (st : State) (ops : List StorageOp) : State :=
  ops.foldl applyStorageOp st

/-- Whether an operation is a `set` or `remove` of `MyStorageValue`. -/
def writesMyStorageValue : StorageOp → Bool
  | StorageOp.svSet _ => true
  | StorageOp.svRemove => true
  | _ => false

/-- C1: dispatching `toto` with `foo = 5` from any signed origin returns
success, appends exactly the one event `Something(5)` to the block's event log
(storage untouched: the rest of the state is carried over unchanged), and the
declared weight of the call is `0`. -/
theorem toto_signed_foo5_ok (who : AccountId) (st : State) :
    toto (Origin.signed who) 5 st =
      (Except.ok (), { st with events := st.events ++ [Event.something 5] }) ∧
    totoWeight 5 = 0 := by
  constructor
  · simp [toto, ensure_signed, deposit_event]
  · rfl

/-- C2: dispatching `toto` with `foo = 15` from any signed origin returns the
business error `InsufficientProposersBalance` and leaves the state — in
particular the event log — exactly as it was (no event appended). -/
theorem toto_signed_foo15_err (who : AccountId) (st : State) :
    toto (Origin.signed who) 15 st =
      (Except.error (DispatchFailure.moduleError PalletError.insufficientProposersBalance),
        st) := by
  simp [toto, ensure_signed]

/-- Frame helper shared by several theorems: `toto` never writes to either
storage item, on any path (success, guard failure, bad origin). -/
theorem toto_state_frame (o : Origin) (foo : Nat) (st : State) :
    ((toto o foo st).2).myStorageValue = st.myStorageValue ∧
    ((toto o foo st).2).myStorage = st.myStorage := by
  cases o with
  | signed w =>
    simp only [toto, ensure_signed]
    split <;> simp [deposit_event]
  | root => exact ⟨rfl, rfl⟩
  | none => exact ⟨rfl, rfl⟩

/-- C3: for every origin that is not a signed account (`root` or `none`),
dispatching `toto` fails `ensure_signed` and returns `BadOrigin`, with the
whole state — storage items and event log alike — unchanged. -/
theorem toto_bad_origin (o : Origin) (foo : Nat) (st : State)
    (h : ∀ w, o ≠ Origin.signed w) :
    toto o foo st = (Except.error DispatchFailure.badOrigin, st) := by
  cases o with
  | signed w => exact absurd rfl (h w)
  | root => simp [toto, ensure_signed]
  | none => simp [toto, ensure_signed]

/-- Witness for C3 at the concrete origin `root`. -/
theorem toto_bad_origin_witness :
    (∀ w, Origin.root ≠ Origin.signed w) ∧
    toto Origin.root 5 initialState = (Except.error DispatchFailure.badOrigin, initialState) :=
  ⟨fun _ h => Origin.noConfusion h,
    toto_bad_origin Origin.root 5 initialState (fun _ h => Origin.noConfusion h)⟩

/-- C4: a payload that fails to decode against the pallet's `Call` type (a
call index followed by a SCALE-compact-encoded `u32`) is rejected with a
decode (infrastructure) error before any dispatchable runs, and the state —
in particular every storage item — is unchanged. -/
theorem dispatch_decode_error (o : Origin) (payload : List Nat) (st : State)
    (h : decodeCall payload = Option.none) :
    dispatchBytes o payload st = (ApplyOutcome.decodeError, st) := by
  simp [dispatchBytes, h]

/-- Witness for C4 at the concrete payload `[0]` (call index `toto` with the
compact argument missing), which fails to decode. -/
theorem dispatch_decode_error_witness :
    decodeCall [0] = Option.none ∧
    dispatchBytes Origin.root [0] initialState = (ApplyOutcome.decodeError, initialState) :=
  ⟨by decide, dispatch_decode_error Origin.root [0] initialState (by decide)⟩

/-- Helper: the transaction segment of a block trace contains no hook entry. -/
theorem runTxs_no_hook (txs : List Tx) (st : State) :
    ∀ e ∈ (runTxs txs st).1, isInitHook e = false := by
  induction txs generalizing st with
  | nil => intro e he; simp [runTxs] at he
  | cons tx rest ih =>
    intro e he
    simp only [runTxs, List.mem_cons] at he
    rcases he with rfl | he
    · rfl
    · exact ih _ e he

/-- C5: the `on_initialize` hook returns weight `10` for every block number,
and in a block's execution trace it fires exactly once, at the head of the
trace — before any transaction of the block is dispatched. -/
theorem on_initialize_once_weight10 (n : Nat) (txs : List Tx) (st : State) :
    on_initialize n = 10 ∧
    ((executeBlock n txs st).1.countP (fun e => isInitHook e)) = 1 ∧
    (executeBlock n txs st).1.head? = some (TraceEntry.hookFired n 10) := by
  refine ⟨rfl, ?_, rfl⟩
  have h0 : ((runTxs txs st).1.countP (fun e => isInitHook e)) = 0 :=
    List.countP_eq_zero.mpr (by simpa using runTxs_no_hook txs st)
  simp only [executeBlock]
  rw [List.countP_cons, h0]
  rfl

/-- Helper: an operation that is not a `set` or `remove` of `MyStorageValue`
leaves that item's content untouched. -/
theorem applyStorageOp_preserves_sv (st : State) (op : StorageOp)
    (h : writesMyStorageValue op = false) :
    (applyStorageOp st op).myStorageValue = st.myStorageValue := by
  cases op with
  | svSet v => simp [writesMyStorageValue] at h
  | svRemove => simp [writesMyStorageValue] at h
  | mapInsert k v => simp [applyStorageOp, myStorage_insert]
  | mapRemove k => simp [applyStorageOp, myStorage_remove]
  | callToto o foo => exact (toto_state_frame o foo st).1
  | runInit m => rfl

/-- Helper: a sequence of operations none of which writes `MyStorageValue`
preserves that item's content. -/
theorem applyStorageOps_preserves_sv (ops : List StorageOp) (st : State)
    (h : ops.all (fun op => !writesMyStorageValue op) = true) :
    (applyStorageOps st ops).myStorageValue = st.myStorageValue := by
  induction ops generalizing st with
  | nil => rfl
  | cons op rest ih =>
    simp only [List.all_cons, Bool.and_eq_true, Bool.not_eq_true'] at h
    calc (applyStorageOps (applyStorageOp st op) rest).myStorageValue
        = (applyStorageOp st op).myStorageValue := ih _ (by
            simpa [List.all_eq_true] using h.2)
      _ = st.myStorageValue := applyStorageOp_preserves_sv st op h.1

/-- C6: `MyStorageValue::get` on the unset item returns exactly its declared
default `MyDefault`, which is the `Balance` value `3`; and after `set(v)` the
value read back is `v`, and stays `v` across any sequence of the pallet's
operations that contains no further `set` or `remove` of this item. -/
theorem myStorageValue_default_and_set (st : State) (v : Balance) (ops : List StorageOp)
    (hunset : st.myStorageValue = Option.none)
    (hops : ops.all (fun op => !writesMyStorageValue op) = true) :
    myStorageValue_get st = MyDefault ∧ MyDefault = 3 ∧
    myStorageValue_get (applyStorageOps (myStorageValue_set st v) ops) = v := by
  refine ⟨by simp [myStorageValue_get, hunset], rfl, ?_⟩
  have h := applyStorageOps_preserves_sv ops (myStorageValue_set st v) hops
  unfold myStorageValue_get
  rw [h]
  rfl

/-- Witness for C6: the unset initial state, `set(9)`, then a dispatch of
`toto`, a map insert and a hook run in between; the read still returns `9`. -/
theorem myStorageValue_default_and_set_witness :
    initialState.myStorageValue = Option.none ∧
    ([StorageOp.callToto (Origin.signed 1) 5, StorageOp.mapInsert 2 7,
        StorageOp.runInit 1].all (fun op => !writesMyStorageValue op) = true) ∧
    (myStorageValue_get initialState = MyDefault ∧ MyDefault = 3 ∧
      myStorageValue_get (applyStorageOps (myStorageValue_set initialState 9)
        [StorageOp.callToto (Origin.signed 1) 5, StorageOp.mapInsert 2 7,
          StorageOp.runInit 1]) = 9) :=
  ⟨rfl, by decide,
    myStorageValue_default_and_set initialState 9
      [StorageOp.callToto (Origin.signed 1) 5, StorageOp.mapInsert 2 7,
        StorageOp.runInit 1] rfl (by decide)⟩

/-- Helper: `twox128` output is always 16 bytes. -/
theorem toLEBytes_length (n x : Nat) : (toLEBytes n x).length = n := by
  induction n generalizing x with
  | zero => rfl
  | succ m ih => simp [toLEBytes, ih]

/-- Helper: the two item-name prefixes of this pallet's storage items differ
(computed through the full `twox128` hash). -/
theorem twox128_item_names_ne : twox128 myStorageValueName ≠ twox128 myStorageName := by
  decide

/-- C7: the physical byte keys derived for the two storage key spaces of this
pallet, `MyStorageValue` and `MyStorage`, are disjoint: under every module
identifier, the value's key differs from every map entry's key, whatever the
hasher emits for the entry (the 16-byte item-name prefixes already differ). -/
theorem storage_key_spaces_disjoint (moduleId hashedKey : List Nat) :
    MyStorageValue_key moduleId ≠ MyStorage_entry_key moduleId hashedKey := by
  intro h
  unfold MyStorageValue_key MyStorage_entry_key storage_value_key storage_map_entry_key at h
  have h2 : twox128 myStorageValueName = twox128 myStorageName ++ hashedKey :=
    List.append_cancel_left h
  have hlen := congrArg List.length h2
  simp only [List.length_append, twox128, toLEBytes_length] at hlen
  have hnil : hashedKey = [] := List.eq_nil_of_length_eq_zero (by omega)
  rw [hnil, List.append_nil] at h2
  exact twox128_item_names_ne h2

/-- C8: storage reads mutate nothing: reading `MyStorageValue`, or `MyStorage`
at any key, twice in a row returns the same value both times, and the state
after each read is the state before it. -/
theorem storage_reads_idempotent (st : State) (k : Nat) :
    (myStorageValue_read st).2 = st ∧
    (myStorageValue_read (myStorageValue_read st).2).1 = (myStorageValue_read st).1 ∧
    (myStorage_read st k).2 = st ∧
    (myStorage_read (myStorage_read st k).2 k).1 = (myStorage_read st k).1 := by
  exact ⟨rfl, rfl, rfl, rfl⟩

/-- C9: `toto` performs no storage write on any path: for every origin, every
argument and every starting state, both `MyStorageValue` and `MyStorage` are
exactly what they were before the dispatch. -/
theorem toto_writes_no_storage (o : Origin) (foo : Nat) (st : State) :
    ((toto o foo st).2).myStorageValue = st.myStorageValue ∧
    ((toto o foo st).2).myStorage = st.myStorage :=
  toto_state_frame o foo st

/-- C10: for a signed origin, `toto` returns `InsufficientProposersBalance`
exactly when `foo ≥ 10` and succeeds exactly when `foo < 10`; its declared
weight is the constant `0` for every argument value. -/
theorem toto_result_characterisation (who : AccountId) (foo : Nat) (st : State) :
    ((toto (Origin.signed who) foo st).1 =
        Except.error (DispatchFailure.moduleError PalletError.insufficientProposersBalance) ↔
      10 ≤ foo) ∧
    ((toto (Origin.signed who) foo st).1 = Except.ok () ↔ foo < 10) ∧
    totoWeight foo = 0 := by
  by_cases h : foo < 10 <;>
    simp [toto, ensure_signed, totoWeight, h, Nat.not_lt, Nat.not_le]
  omega
